import Mathlib

/-!
Shallow embedding of `src/shivortex_bot.py` (GPT-Shivortex).

The program is a Telegram bot gluing together three external services:
a Supabase relational store (tables `bot_settings` and `messages`), the
Cloudflare Workers AI inference HTTP endpoint, and the Telegram bot API.

Modelling choices:
* The Supabase store is a `DB` value: the singleton `bot_settings` row
  (`Option SettingsRow`, fields nullable as in SQL) plus the `messages`
  table as a list kept in insertion order, each row stamped with a
  strictly increasing `created_at` counter (`nextTime`).  Consequently
  `ORDER BY created_at DESC` over the rows of a chat is `List.reverse` of the
  filtered list, which is how `load_history` embeds the query.
* The Python idiom `x or default` on nullable fields treats `None`, `""` and `0`
  as falsy; `pyOrStr` / `pyOrInt` embed that exactly.
* HTTP is an oracle `Nat → HttpOutcome`: the k-th `requests.post` of a
  run receives the k-th outcome, either a raised exception (`exn`, with
  the string rendering of the exception) or a decoded JSON body (`ok`).  The
  JSON shapes distinguished by the code are an inductive `JsonData`.
* Side effects that the claims talk about (HTTP posts, sleeps, store
  inserts, outgoing replies) are recorded in an event trace `List Op`.
* `time.sleep` durations are recorded in milliseconds (0.6 s = 600 ms,
  0.4 s = 400 ms); real time is not modelled.
-/

namespace Shivortex

/-! ### String primitives

The Python operations `str.strip`, `str.lower`, `str.endswith`, slicing and `in` are
embedded as structural functions on the character list of a `String`, so
that every definition evaluates by kernel reduction on concrete input.
-/

/-- Python `s.strip()`: remove leading and trailing whitespace. -/
def pyStrip (s : String) : String :=
  String.mk (((s.data.dropWhile Char.isWhitespace).reverse.dropWhile
    Char.isWhitespace).reverse)

/-- Python `s.lower()` (ASCII case folding, which covers the banned
phrases the program checks). -/
def pyLower (s : String) : String :=
  String.mk (s.data.map Char.toLower)

/-- Python `s[:n]`: the first `n` characters. -/
def pyTake (s : String) (n : Nat) : String :=
  String.mk (s.data.take n)

/-- True iff the first list is an initial segment of the second. -/
def leadsWith : List Char → List Char → Bool
  | [], _ => true
  | _ :: _, [] => false
  | p :: ps, c :: cs => p == c && leadsWith ps cs

/-- Python `s.endswith(pat)`. -/
def pyEndsWith (s pat : String) : Bool :=
  leadsWith pat.data.reverse s.data.reverse

/-- True iff `pat` occurs contiguously in the second list. -/
def containsSeq (pat : List Char) : List Char → Bool
  | [] => leadsWith pat []
  | c :: rest => leadsWith pat (c :: rest) || containsSeq pat rest

/-- Python `pat in s` substring test. -/
def strContains (s pat : String) : Bool :=
  containsSeq pat.data s.data

/-- Line 43: the ENFORCED_RULES constant. -/
def ENFORCED_RULES : String :=
  "ENFORCED RULES:\n" ++
  "1) Use ONLY facts provided by the user or stored memory; do NOT invent data.\n" ++
  "2) Reply once per user message; do NOT produce multi-turn transcripts.\n" ++
  "3) Do not apologize or reference earlier assistant replies unless explicitly asked.\n"

/-- Line 50. -/
def DEFAULT_STYLE : String := "brief"

/-- Line 51 (used as a soft limit; named max_tokens in the settings row). -/
def DEFAULT_MAX_WORDS : Int := 140

/-- Line 66: default system prompt written on first settings access. -/
def DEFAULT_SYSTEM_PROMPT : String :=
  "You are SHIVORTEX, a private AI assistant for Shivam. Use only user-provided facts. Be concise and practical."

/-- A stored `bot_settings` row (id = 1).  SQL columns are nullable. -/
structure SettingsRow where
  system_prompt : Option String
  style : Option String
  max_tokens : Option Int
deriving DecidableEq, Repr

/-- A stored `messages` row.  `created_at` comes from the DB clock,
modelled as a strictly increasing counter. -/
structure MsgRow where
  chat_id : Int
  role : String
  content : String
  created_at : Nat
deriving DecidableEq, Repr

/-- The remote store: the singleton settings row and the messages table
in insertion order (ascending `created_at`), plus the clock. -/
structure DB where
  bot_settings : Option SettingsRow
  messages : List MsgRow
  nextTime : Nat
deriving DecidableEq, Repr

/-- The dict returned by `get_bot_settings` (all fields defaulted, so
none is nullable). -/
structure Settings where
  system_prompt : String
  style : String
  max_tokens : Int
deriving DecidableEq, Repr

/-- Python `v or d` for a nullable string column: `None` and `""` are
falsy. -/
def pyOrStr (v : Option String) (d : String) : String :=
  match v with
  | none => d
  | some s => if s = "" then d else s

/-- Python `v or d` for a nullable integer column: `None` and `0` are
falsy. -/
def pyOrInt (v : Option Int) (d : Int) : Int :=
  match v with
  | none => d
  | some n => if n = 0 then d else n

/-- Lines 54-70: read the settings singleton, defaulting each field;
if the row is absent, upsert hard-coded defaults and return them.
Returns the settings dict together with the (possibly updated) store. -/
def get_bot_settings (db : DB) : Settings × DB :=
  match db.bot_settings with
  | some row =>
      ({ system_prompt := pyOrStr row.system_prompt ""
         style := pyOrStr row.style DEFAULT_STYLE
         max_tokens := pyOrInt row.max_tokens DEFAULT_MAX_WORDS }, db)
  | none =>
      ({ system_prompt := DEFAULT_SYSTEM_PROMPT
         style := DEFAULT_STYLE
         max_tokens := DEFAULT_MAX_WORDS },
       { db with bot_settings := some ⟨some DEFAULT_SYSTEM_PROMPT, some DEFAULT_STYLE, some DEFAULT_MAX_WORDS⟩ })

/-- Lines 72-74: read current settings, then upsert the full row with the
new prompt and the current style / max_tokens. -/
def admin_update_prompt (db : DB) (new_prompt : String) : DB :=
  let settings := (get_bot_settings db).1
  let db1 := (get_bot_settings db).2
  { db1 with bot_settings := some ⟨some new_prompt, some settings.style, some settings.max_tokens⟩ }

/-- Lines 85-86: insert one role/content row for the chat. -/
def save_message (db : DB) (chat_id : Int) (role content : String) : DB :=
  { db with
    messages := db.messages ++ [⟨chat_id, role, content, db.nextTime⟩]
    nextTime := db.nextTime + 1 }

/-- Lines 88-91: select the rows of the chat ordered by `created_at`
descending (= reverse of insertion order), apply `LIMIT limit`, project
to (role, content), then reverse back to chronological order. -/
def load_history (db : DB) (chat_id : Int) (limit : Nat) : List (String × String) :=
  let filtered := db.messages.filter (fun r => r.chat_id == chat_id)
  (((filtered.reverse).take limit).map (fun r => (r.role, r.content))).reverse

/-- Line 104: style instruction chosen by the style enum. -/
def styleInstruction (style : String) : String :=
  if style == "brief" then "Style: brief, 1-2 sentences."
  else "Style: detailed, clear bullet points with steps."

/-- Lines 115-119: one history turn rendered into the prompt; content is
clipped to its first 240 characters with an ellipsis marker. -/
def renderTurn (role content : String) : String :=
  let role_label := if role == "user" then "User" else "Assistant"
  let short := if content.length ≤ 240 then content else pyTake content 240 ++ "..."
  role_label ++ ": " ++ short ++ "\n"

/-- Lines 114-119: the concatenated history lines. -/
def historyText (history : List (String × String)) : String :=
  history.foldl (fun acc rc => acc ++ renderTurn rc.1 rc.2) ""

/-- Line 121: the history section is present only when the rendered
history is non-empty (Python truthiness of the string). -/
def historyBlock (history : List (String × String)) : String :=
  let ht := historyText history
  if ht = "" then "" else "History:\n" ++ ht ++ "\n"

/-- Lines 98-122: assemble the model prompt from settings, the enforced
rules, the style line, the word-limit line, recent history and the new
user message.  Returns the prompt and the store (the internal
`get_bot_settings` call can create the settings row). -/
def build_prompt_for_model (db : DB) (chat_id : Int) (user_message : String)
    (history_limit : Nat := 4) : String × DB :=
  let settings := (get_bot_settings db).1
  let db1 := (get_bot_settings db).2
  let system_prompt := pyStrip settings.system_prompt
  let system_block :=
    system_prompt ++ "\n\n" ++
    ENFORCED_RULES ++ "\n" ++
    styleInstruction settings.style ++ "\n" ++
    "MAX_APPROX_WORDS: " ++ toString settings.max_tokens ++ "\n\n"
  let history := load_history db1 chat_id history_limit
  let prompt :=
    system_block ++ historyBlock history ++ "User: " ++ user_message ++ "\nAssistant:"
  (prompt, db1)

/-! ## Cloudflare model call -/

/-- The JSON body shapes `call_cloudflare_model` distinguishes after
`r.json()` succeeds (lines 165-180).  `otherDict` / `nonDict` carry the
Python `str(data)` rendering of shapes the code does not destructure. -/
inductive JsonData where
  | resultResponse (s : String)
  | generatedText (s : String)
  | errorField (e : String)
  | otherDict (s : String)
  | nonDict (s : String)
deriving DecidableEq, Repr

/-- Outcome of one `requests.post(...)` + `r.json()`: an exception (with
its string rendering) or a decoded body. -/
inductive HttpOutcome where
  | exn (e : String)
  | ok (data : JsonData)
deriving DecidableEq, Repr

/-- Python `str(data)` for the shapes the strict-retry parser stringifies
(lines 212-215).  The exact dict rendering only matters up to being some
string, but we fix a concrete one. -/
def strOfJsonData : JsonData → String
  | .resultResponse s => "\x7b\x27result\x27: \x7b\x27response\x27: \x27" ++ s ++ "\x27\x7d\x7d"
  | .generatedText s => "\x7b\x27generated_text\x27: \x27" ++ s ++ "\x27\x7d"
  | .errorField e => "\x7b\x27error\x27: \x27" ++ e ++ "\x27\x7d"
  | .otherDict s => s
  | .nonDict s => s

/-- Result of the robust parse at lines 165-183: either a text to gate or
a model-error string that is returned immediately. -/
inductive Parsed where
  | text (s : String)
  | modelError (m : String)
deriving DecidableEq, Repr

/-- Lines 165-183: recognize `result.response`, `generated_text`,
`error`; stringify everything else. -/
def parseResponse : JsonData → Parsed
  | .resultResponse s => .text s
  | .generatedText s => .text s
  | .errorField e => .modelError ("❌ Model error: " ++ e)
  | .otherDict s => .text s
  | .nonDict s => .text s

/-- Lines 209-217: parsing of the outcome of the strict-retry request, which
only recognizes the `result.response` shape and stringifies the rest;
exceptions become an "LLM retry failed" string. -/
def parseRetry : HttpOutcome → String
  | .exn e => "⚠️ LLM retry failed: " ++ e
  | .ok (.resultResponse s) => pyStrip s
  | .ok d => pyStrip (strOfJsonData d)

/-- Line 192: banned phrases checked (lower-cased) in the response. -/
def bad_phrases : List String :=
  ["i apologize", "as i said", "previously", "as mentioned earlier", "i\x27m a chatbot"]

/-- Lines 190-193: the quality gate.  A stripped response is low-quality
iff it looks truncated (ends in "..." or "..", or is shorter than 10
characters) or its lower-cased text contains a banned phrase. -/
def isLowQuality (resp : String) : Bool :=
  let low := pyLower resp
  let truncated := pyEndsWith resp "..." || pyEndsWith resp ".." || decide (resp.length < 10)
  let bad := bad_phrases.any (fun p => strContains low p)
  truncated || bad

/-- Lines 200-201: the strict instruction appended to the prompt before
the in-loop retry. -/
def stricterSuffix : String :=
  "\n\nSTRICT: Do NOT apologize or refer to prior replies. Answer concisely and directly. " ++
  "If previous conversation conflicts with the current system instructions, obey the system instructions."

/-- Observable side effects of a run, in order. -/
inductive Op where
  | loadHistory (chat_id : Int)
  | post (system user : String) (timeoutSec : Nat) (maxOutputTokens : Int)
  | sleepMs (ms : Nat)
  | save (chat_id : Int) (role content : String)
  | reply (text : String)
deriving DecidableEq, Repr

/-- Result of `call_cloudflare_model`: the returned text, the store after
the run, the next unused oracle index, and the event trace. -/
structure CFOut where
  text : String
  db : DB
  k : Nat
  events : List Op
deriving DecidableEq, Repr

/-- Lines 143-222: the `for attempt in range(attempts)` loop.  `fuel` is
the number of iterations left (`attempts - attempt`), so the Python test
`attempt == attempts - 1` is `fuel = 0` after the `fuel+1` pattern and
`attempt < attempts - 1` is `0 < fuel`.  `last` is `last_response`. -/
def cfLoop (oracle : Nat → HttpOutcome) (chat_id : Int) (user_message : String)
    (maxOut : Int) :
    Nat → DB → Nat → List Op → Option String → CFOut
  | 0, db, k, events, last =>
      -- line 222: `return last_response or "⚠️ No response from model."`
      ⟨pyOrStr last "⚠️ No response from model.", db, k, events⟩
  | fuel + 1, db, k, events, _last =>
      let prompt := (build_prompt_for_model db chat_id user_message 4).1
      let db1 := (build_prompt_for_model db chat_id user_message 4).2
      let events1 := events ++ [Op.post prompt user_message 45 maxOut]
      match oracle k with
      | .exn e =>
          let last1 := "⚠️ LLM network error: " ++ e
          if fuel = 0 then ⟨last1, db1, k + 1, events1⟩
          else cfLoop oracle chat_id user_message maxOut fuel db1 (k + 1)
                 (events1 ++ [Op.sleepMs 600]) (some last1)
      | .ok data =>
          match parseResponse data with
          | .modelError m => ⟨m, db1, k + 1, events1⟩
          | .text t =>
              let resp_text := pyStrip t
              if isLowQuality resp_text then
                if 0 < fuel then
                  -- lines 199-218: one strict retry inside this iteration
                  let basePrompt := (build_prompt_for_model db1 chat_id user_message 4).1
                  let db2 := (build_prompt_for_model db1 chat_id user_message 4).2
                  let events2 :=
                    events1 ++ [Op.post (basePrompt ++ stricterSuffix) user_message 40 maxOut]
                  let resp2 := parseRetry (oracle (k + 1))
                  cfLoop oracle chat_id user_message maxOut fuel db2 (k + 2)
                    (events2 ++ [Op.sleepMs 400]) (some resp2)
                else
                  cfLoop oracle chat_id user_message maxOut fuel db1 (k + 1)
                    (events1 ++ [Op.sleepMs 400]) (some resp_text)
              else
                ⟨resp_text, db1, k + 1, events1⟩

/-- Lines 125-222: read settings, compute the token parameter
(`max(120, min(1024, max_words * 3))`), then run the attempt loop. -/
def call_cloudflare_model (db : DB) (chat_id : Int) (user_message : String)
    (attempts : Nat) (oracle : Nat → HttpOutcome) : CFOut :=
  let settings := (get_bot_settings db).1
  let db1 := (get_bot_settings db).2
  let maxOut : Int := max 120 (min 1024 (settings.max_tokens * 3))
  cfLoop oracle chat_id user_message maxOut attempts db1 0 [] none

/-! ## Telegram handlers -/

/-- The part of a Telegram `Update` the admin gate and handlers use. -/
structure TgUpdate where
  effective_user : Option Int
  chat_id : Int
deriving DecidableEq, Repr

/-- Lines 225-226: the sender is admin iff an effective user exists and
its id equals the configured admin id. -/
def is_admin (adminId : Int) (u : TgUpdate) : Bool :=
  match u.effective_user with
  | none => false
  | some i => i == adminId

/-- Lines 241-250: the `/setprompt` handler.  Returns the store after the
handler and the list of replies sent. -/
def setprompt (adminId : Int) (u : TgUpdate) (args : List String) (db : DB) :
    DB × List String :=
  if !is_admin adminId u then (db, ["⛔ Not allowed."])
  else
    let text := pyStrip (String.intercalate " " args)
    if text = "" then (db, ["Usage: /setprompt <text>"])
    else (admin_update_prompt db text, ["✅ System prompt updated."])

/-- Result of `handle_message`: store, replies sent, event trace. -/
structure HMOut where
  db : DB
  replies : List String
  trace : List Op
deriving DecidableEq, Repr

/-- Lines 321-330: the default text-message handler.  `msgText` is
`update.message.text` (possibly absent). -/
def handle_message (db : DB) (oracle : Nat → HttpOutcome) (chat_id : Int)
    (msgText : Option String) : HMOut :=
  let text := pyStrip (msgText.getD "")
  if text = "" then ⟨db, [], []⟩
  else
    let _history := load_history db chat_id 4
    let cf := call_cloudflare_model db chat_id text 2 oracle
    let db1 := save_message cf.db chat_id "user" text
    let db2 := save_message db1 chat_id "assistant" cf.text
    ⟨db2, [cf.text],
      [Op.loadHistory chat_id] ++ cf.events ++
        [Op.save chat_id "user" text, Op.save chat_id "assistant" cf.text, Op.reply cf.text]⟩

/-- Saving a sequence of (role, content) turns for one chat, in order
(`save_message` per turn). -/
def saveTurns (db : DB) (chat_id : Int) (turns : List (String × String)) : DB :=
  turns.foldl (fun d rc => save_message d chat_id rc.1 rc.2) db

/-- The rows that saving `turns` for `chat_id` appends, stamped from
clock value `t` on. -/
def mkRows (chat_id : Int) : Nat → List (String × String) → List MsgRow
  | _, [] => []
  | t, rc :: rest => ⟨chat_id, rc.1, rc.2, t⟩ :: mkRows chat_id (t + 1) rest

/-- Right-fold concatenation of a list of strings. -/
def concatLines (l : List String) : String :=
  l.foldr (fun a b => a ++ b) ""

/-! ## Helper lemmas -/

theorem pyOrStr_some_nil (s : String) : pyOrStr (some s) "" = s := by
  by_cases h : s = "" <;> simp [pyOrStr, h]

theorem pyOrStr_some_of_ne (s d : String) (h : s ≠ "") : pyOrStr (some s) d = s := by
  simp [pyOrStr, h]

theorem pyOrInt_some_of_ne (n d : Int) (h : n ≠ 0) : pyOrInt (some n) d = n := by
  simp [pyOrInt, h]

theorem pyOrStr_ne_nil (v : Option String) (d : String) (hd : d ≠ "") :
    pyOrStr v d ≠ "" := by
  match v with
  | none => simpa [pyOrStr] using hd
  | some s => by_cases h : s = "" <;> simp [pyOrStr, h, hd]

theorem pyOrInt_ne_zero (v : Option Int) (d : Int) (hd : d ≠ 0) :
    pyOrInt v d ≠ 0 := by
  match v with
  | none => simpa [pyOrInt] using hd
  | some n => by_cases h : n = 0 <;> simp [pyOrInt, h, hd]

theorem get_bot_settings_style_ne (db : DB) : (get_bot_settings db).1.style ≠ "" := by
  cases h : db.bot_settings with
  | none => simp [get_bot_settings, h, DEFAULT_STYLE]
  | some row =>
      simpa [get_bot_settings, h] using
        pyOrStr_ne_nil row.style DEFAULT_STYLE (by simp [DEFAULT_STYLE])

theorem get_bot_settings_max_ne (db : DB) : (get_bot_settings db).1.max_tokens ≠ 0 := by
  cases h : db.bot_settings with
  | none => simp [get_bot_settings, h, DEFAULT_MAX_WORDS]
  | some row =>
      simpa [get_bot_settings, h] using
        pyOrInt_ne_zero row.max_tokens DEFAULT_MAX_WORDS (by simp [DEFAULT_MAX_WORDS])

theorem get_bot_settings_messages (db : DB) :
    ((get_bot_settings db).2).messages = db.messages := by
  cases h : db.bot_settings <;> simp [get_bot_settings, h]

theorem get_bot_settings_nextTime (db : DB) :
    ((get_bot_settings db).2).nextTime = db.nextTime := by
  cases h : db.bot_settings <;> simp [get_bot_settings, h]

theorem get_bot_settings_of_some (db : DB) (row : SettingsRow)
    (h : db.bot_settings = some row) : (get_bot_settings db).2 = db := by
  simp [get_bot_settings, h]

theorem get_bot_settings_fst_of_some (db : DB) (row : SettingsRow)
    (h : db.bot_settings = some row) :
    (get_bot_settings db).1 =
      ⟨pyOrStr row.system_prompt "", pyOrStr row.style DEFAULT_STYLE,
        pyOrInt row.max_tokens DEFAULT_MAX_WORDS⟩ := by
  simp [get_bot_settings, h]

theorem get_bot_settings_idem (db : DB) :
    get_bot_settings ((get_bot_settings db).2) = get_bot_settings db := by
  cases h : db.bot_settings with
  | some row => simp [get_bot_settings, h]
  | none =>
      simp [get_bot_settings, h, pyOrStr, pyOrInt, DEFAULT_SYSTEM_PROMPT,
        DEFAULT_STYLE, DEFAULT_MAX_WORDS]

/-! ## C2: load_history returns the last min(N, limit) turns, oldest first -/

theorem saveTurns_messages (chat_id : Int) (turns : List (String × String)) :
    ∀ db : DB, (saveTurns db chat_id turns).messages =
      db.messages ++ mkRows chat_id db.nextTime turns := by
  induction turns with
  | nil => intro db; simp [saveTurns, mkRows]
  | cons rc rest ih =>
      intro db
      simpa [saveTurns, mkRows, save_message, List.foldl_cons] using
        ih (save_message db chat_id rc.1 rc.2)

theorem mkRows_filter (chat_id : Int) (turns : List (String × String)) :
    ∀ t, (mkRows chat_id t turns).filter (fun r => r.chat_id == chat_id) =
      mkRows chat_id t turns := by
  induction turns with
  | nil => intro t; simp [mkRows]
  | cons rc rest ih => intro t; simp [mkRows, List.filter_cons, ih]

theorem mkRows_map (chat_id : Int) (turns : List (String × String)) :
    ∀ t, (mkRows chat_id t turns).map (fun r => (r.role, r.content)) = turns := by
  induction turns with
  | nil => intro t; simp [mkRows]
  | cons rc rest ih => intro t; simp [mkRows, ih]

theorem mkRows_length (chat_id : Int) (turns : List (String × String)) :
    ∀ t, (mkRows chat_id t turns).length = turns.length := by
  induction turns with
  | nil => intro t; simp [mkRows]
  | cons rc rest ih => intro t; simp [mkRows, ih]

/-- C2: for any chat with no prior rows, after saving the N turns of
`turns`, `load_history chat limit` returns the last `min N limit` turns
in chronological order (oldest first): it equals
`turns.drop (N - limit)`, the suffix of length `min N limit`. -/
theorem load_history_after_saves (db : DB) (chat_id : Int)
    (turns : List (String × String)) (limit : Nat)
    (hfresh : db.messages.filter (fun r => r.chat_id == chat_id) = []) :
    load_history (saveTurns db chat_id turns) chat_id limit =
      turns.drop (turns.length - limit) ∧
    (load_history (saveTurns db chat_id turns) chat_id limit).length =
      min turns.length limit := by
  have hmain :
      load_history (saveTurns db chat_id turns) chat_id limit =
        turns.drop (turns.length - limit) := by
    unfold load_history
    rw [saveTurns_messages, List.filter_append, hfresh, List.nil_append,
      mkRows_filter]
    rw [← List.map_reverse, ← List.rtake_eq_reverse_take_reverse, List.rtake,
      List.map_drop, mkRows_map, mkRows_length]
  refine ⟨hmain, ?_⟩
  rw [hmain, List.length_drop]
  omega

/-! ## C3: update_prompt then get_settings -/

/-- C3: after `admin_update_prompt p`, `get_bot_settings` returns `p` as
the system prompt while style and max_tokens keep the values
`get_bot_settings` returned before the update. -/
theorem update_prompt_then_get (db : DB) (p : String) :
    ((get_bot_settings (admin_update_prompt db p)).1).system_prompt = p ∧
    ((get_bot_settings (admin_update_prompt db p)).1).style =
      ((get_bot_settings db).1).style ∧
    ((get_bot_settings (admin_update_prompt db p)).1).max_tokens =
      ((get_bot_settings db).1).max_tokens := by
  have hrow : (admin_update_prompt db p).bot_settings =
      some ⟨some p, some (get_bot_settings db).1.style,
        some (get_bot_settings db).1.max_tokens⟩ := by
    simp [admin_update_prompt]
  rw [get_bot_settings_fst_of_some _ _ hrow]
  refine ⟨?_, ?_, ?_⟩
  · exact pyOrStr_some_nil p
  · exact pyOrStr_some_of_ne _ _ (get_bot_settings_style_ne db)
  · exact pyOrInt_some_of_ne _ _ (get_bot_settings_max_ne db)

/-! ## C4: /setprompt by a non-admin mutates nothing -/

/-- C4: a sender whose user id differs from the configured admin id gets
the fixed refusal from `/setprompt` and the store is unchanged (and the
handler is a total function, so it cannot raise). -/
theorem setprompt_non_admin (adminId uid : Int) (u : TgUpdate)
    (args : List String) (db : DB)
    (hu : u.effective_user = some uid) (hne : uid ≠ adminId) :
    setprompt adminId u args db = (db, ["⛔ Not allowed."]) := by
  have hadm : is_admin adminId u = false := by
    simp [is_admin, hu, hne]
  simp [setprompt, hadm]

/-- Witness for C4 at a concrete non-admin sender. -/
theorem setprompt_non_admin_witness :
    setprompt 99 ⟨some 5, 1⟩ ["new", "prompt"]
        ⟨some ⟨some "P", some "brief", some 140⟩, [], 0⟩ =
      (⟨some ⟨some "P", some "brief", some 140⟩, [], 0⟩, ["⛔ Not allowed."]) :=
  setprompt_non_admin 99 5 ⟨some 5, 1⟩ ["new", "prompt"]
    ⟨some ⟨some "P", some "brief", some 140⟩, [], 0⟩ rfl (by decide)

/-- Witness for C2 at a concrete store: three turns saved, limit 2. -/
theorem load_history_after_saves_witness :
    load_history (saveTurns ⟨none, [], 0⟩ 7
        [("user", "hi"), ("assistant", "hello"), ("user", "more")]) 7 2 =
      [("assistant", "hello"), ("user", "more")] ∧
    (load_history (saveTurns ⟨none, [], 0⟩ 7
        [("user", "hi"), ("assistant", "hello"), ("user", "more")]) 7 2).length =
      min 3 2 := by
  have h := load_history_after_saves ⟨none, [], 0⟩ 7
    [("user", "hi"), ("assistant", "hello"), ("user", "more")] 2 (by decide)
  simpa using h

/-! ## C7: settings defaults invariant -/

/-- C7: `get_bot_settings` creates the singleton row when absent, and the
returned settings always carry a usable style and word limit: they are
never empty / zero, and whenever the stored field is missing (no row) or
null, the defaults "brief" and 140 are substituted. -/
theorem settings_defaults_invariant (db : DB) :
    ((get_bot_settings db).2).bot_settings ≠ none ∧
    (get_bot_settings db).1.style ≠ "" ∧
    (get_bot_settings db).1.max_tokens ≠ 0 ∧
    (db.bot_settings = none →
      (get_bot_settings db).1.style = "brief" ∧
      (get_bot_settings db).1.max_tokens = 140) ∧
    (∀ row : SettingsRow, db.bot_settings = some row → row.style = none →
      (get_bot_settings db).1.style = "brief") ∧
    (∀ row : SettingsRow, db.bot_settings = some row → row.max_tokens = none →
      (get_bot_settings db).1.max_tokens = 140) := by
  refine ⟨?_, get_bot_settings_style_ne db, get_bot_settings_max_ne db, ?_, ?_, ?_⟩
  · cases h : db.bot_settings <;> simp [get_bot_settings, h]
  · intro h
    simp [get_bot_settings, h, DEFAULT_STYLE, DEFAULT_MAX_WORDS]
  · intro row hrow hnull
    rw [get_bot_settings_fst_of_some db row hrow]
    simp [hnull, pyOrStr, DEFAULT_STYLE]
  · intro row hrow hnull
    rw [get_bot_settings_fst_of_some db row hrow]
    simp [hnull, pyOrInt, DEFAULT_MAX_WORDS]

/-- Witness for C7 on an empty store and on a row with null fields. -/
theorem settings_defaults_invariant_witness :
    ((get_bot_settings ⟨none, [], 0⟩).1.style = "brief" ∧
      (get_bot_settings ⟨none, [], 0⟩).1.max_tokens = 140) ∧
    (get_bot_settings ⟨some ⟨some "P", none, none⟩, [], 0⟩).1.style = "brief" ∧
    (get_bot_settings ⟨some ⟨some "P", none, none⟩, [], 0⟩).1.max_tokens = 140 :=
  ⟨(settings_defaults_invariant ⟨none, [], 0⟩).2.2.2.1 rfl,
   (settings_defaults_invariant ⟨some ⟨some "P", none, none⟩, [], 0⟩).2.2.2.2.1
      ⟨some "P", none, none⟩ rfl rfl,
   (settings_defaults_invariant ⟨some ⟨some "P", none, none⟩, [], 0⟩).2.2.2.2.2
      ⟨some "P", none, none⟩ rfl rfl⟩

/-! ## C8: blank inbound text is a no-op -/

/-- C8: an inbound non-command message whose text is absent, empty or
whitespace-only makes `handle_message` return with the store untouched,
no model call, no store access and no reply (empty trace). -/
theorem handle_message_blank (db : DB) (oracle : Nat → HttpOutcome) (chat_id : Int)
    (msgText : Option String) (h : pyStrip (msgText.getD "") = "") :
    handle_message db oracle chat_id msgText = ⟨db, [], []⟩ := by
  simp [handle_message, h]

/-- Witness for C8 on a whitespace-only message. -/
theorem handle_message_blank_witness :
    handle_message ⟨none, [], 0⟩ (fun _ => HttpOutcome.exn "down") 3 (some "   ") =
      ⟨⟨none, [], 0⟩, [], []⟩ :=
  handle_message_blank ⟨none, [], 0⟩ (fun _ => HttpOutcome.exn "down") 3
    (some "   ") (by decide)

/-! ## C9: the quality gate, characterized -/

/-- C9: a stripped response is classified low-quality exactly when it
ends with "..." or "..", or is shorter than 10 characters, or its
lower-cased text contains one of the five banned phrases. -/
theorem quality_gate_characterization (s : String) :
    isLowQuality s = true ↔
      (pyEndsWith s "..." = true ∨ pyEndsWith s ".." = true ∨ s.length < 10 ∨
        ∃ p ∈ ["i apologize", "as i said", "previously", "as mentioned earlier",
                "i\x27m a chatbot"],
          strContains (pyLower s) p = true) := by
  simp only [isLowQuality, bad_phrases, List.any_eq_true, Bool.or_eq_true,
    decide_eq_true_eq]
  tauto

/-! ## C6: the assembled prompt structure -/

theorem historyText_eq_concat (history : List (String × String)) :
    historyText history =
      concatLines (history.map (fun rc =>
        (if rc.1 == "user" then "User" else "Assistant") ++ ": " ++
          (if rc.2.length ≤ 240 then rc.2 else pyTake rc.2 240 ++ "...") ++ "\n")) := by
  suffices H : ∀ (l : List (String × String)) (acc : String),
      l.foldl (fun a rc => a ++ renderTurn rc.1 rc.2) acc =
        acc ++ concatLines (l.map (fun rc =>
          (if rc.1 == "user" then "User" else "Assistant") ++ ": " ++
            (if rc.2.length ≤ 240 then rc.2 else pyTake rc.2 240 ++ "...") ++ "\n")) by
    simpa [historyText] using H history ""
  intro l
  induction l with
  | nil => intro acc; simp [concatLines]
  | cons rc rest ih =>
      intro acc
      rw [List.foldl_cons, ih]
      simp only [List.map_cons, concatLines, List.foldr_cons, renderTurn]
      simp [String.append_assoc]

/-- C6: with a fully populated settings row, the built prompt is exactly
the system prompt (stripped), the enforced-rules block, the style line
chosen by the style value, the MAX_APPROX_WORDS directive, the history
section (chronological, one line per turn, content clipped to its first
240 characters with an "..." marker), and finally
`"User: <msg>\nAssistant:"`; and the history section renders each turn
of `load_history` in order. -/
theorem build_prompt_structure (db : DB) (chat_id : Int) (msg sp st : String)
    (mt : Int) (hrow : db.bot_settings = some ⟨some sp, some st, some mt⟩)
    (hst : st ≠ "") (hmt : mt ≠ 0) :
    (build_prompt_for_model db chat_id msg 4).1 =
      pyStrip sp ++ "\n\n" ++ ENFORCED_RULES ++ "\n" ++ styleInstruction st ++ "\n" ++
        "MAX_APPROX_WORDS: " ++ toString mt ++ "\n\n" ++
        historyBlock (load_history db chat_id 4) ++
        ("User: " ++ msg ++ "\nAssistant:") ∧
    historyText (load_history db chat_id 4) =
      concatLines ((load_history db chat_id 4).map (fun rc =>
        (if rc.1 == "user" then "User" else "Assistant") ++ ": " ++
          (if rc.2.length ≤ 240 then rc.2 else pyTake rc.2 240 ++ "...") ++ "\n")) := by
  refine ⟨?_, historyText_eq_concat _⟩
  have hfst := get_bot_settings_fst_of_some db _ hrow
  have hsnd := get_bot_settings_of_some db _ hrow
  simp only [build_prompt_for_model, hfst, hsnd, pyOrStr_some_nil,
    pyOrStr_some_of_ne _ _ hst, pyOrInt_some_of_ne _ _ hmt]
  simp [String.append_assoc]

/-! ## C5: network errors on both attempts -/

theorem build_prompt_stable (db : DB) (c : Int) (m : String) (n : Nat) :
    build_prompt_for_model ((build_prompt_for_model db c m n).2) c m n =
      build_prompt_for_model db c m n := by
  simp [build_prompt_for_model, get_bot_settings_idem]

theorem cfLoop_exn_exn (oracle : Nat → HttpOutcome) (c : Int) (m : String) (mo : Int)
    (db : DB) (k : Nat) (ev : List Op) (last : Option String) (e1 e2 : String)
    (h0 : oracle k = .exn e1) (h1 : oracle (k + 1) = .exn e2) :
    cfLoop oracle c m mo 2 db k ev last =
      ⟨"⚠️ LLM network error: " ++ e2,
       (build_prompt_for_model db c m 4).2, k + 2,
       ev ++ [Op.post (build_prompt_for_model db c m 4).1 m 45 mo, Op.sleepMs 600,
              Op.post (build_prompt_for_model db c m 4).1 m 45 mo]⟩ := by
  simp [cfLoop, h0, h1, build_prompt_stable]

/-- C5: when the HTTP request raises on both attempts (attempts = 2), the
returned text is the network-error string built from the second
exception — in particular it extends the prefix "⚠️ LLM network error:" —
and the trace is exactly two posts separated by the fixed 0.6 s sleep. -/
theorem network_error_both_attempts (db : DB) (chat_id : Int) (msg e1 e2 : String) :
    ((call_cloudflare_model db chat_id msg 2
        (fun k => if k = 0 then HttpOutcome.exn e1 else HttpOutcome.exn e2)).text =
      "⚠️ LLM network error: " ++ e2) ∧
    (∃ rest, (call_cloudflare_model db chat_id msg 2
        (fun k => if k = 0 then HttpOutcome.exn e1 else HttpOutcome.exn e2)).text =
      "⚠️ LLM network error:" ++ rest) ∧
    (∃ p mo, (call_cloudflare_model db chat_id msg 2
        (fun k => if k = 0 then HttpOutcome.exn e1 else HttpOutcome.exn e2)).events =
      [Op.post p msg 45 mo, Op.sleepMs 600, Op.post p msg 45 mo]) := by
  have hcall : call_cloudflare_model db chat_id msg 2
      (fun k => if k = 0 then HttpOutcome.exn e1 else HttpOutcome.exn e2) =
      cfLoop (fun k => if k = 0 then HttpOutcome.exn e1 else HttpOutcome.exn e2)
        chat_id msg (max 120 (min 1024 ((get_bot_settings db).1.max_tokens * 3))) 2
        ((get_bot_settings db).2) 0 [] none := rfl
  have hrun := cfLoop_exn_exn
    (fun k => if k = 0 then HttpOutcome.exn e1 else HttpOutcome.exn e2)
    chat_id msg (max 120 (min 1024 ((get_bot_settings db).1.max_tokens * 3)))
    ((get_bot_settings db).2) 0 [] none e1 e2 (by simp) (by simp)
  rw [hcall, hrun]
  refine ⟨rfl, ⟨" " ++ e2, ?_⟩, ?_⟩
  · have hsplit : ("⚠️ LLM network error: " : String) =
        "⚠️ LLM network error:" ++ " " := rfl
    rw [hsplit, String.append_assoc]
  · exact ⟨(build_prompt_for_model ((get_bot_settings db).2) chat_id msg 4).1,
      max 120 (min 1024 ((get_bot_settings db).1.max_tokens * 3)), by simp⟩

/-! ## C10: the handler persists exactly the two turns, in order -/

theorem build_prompt_messages (db : DB) (c : Int) (m : String) (n : Nat) :
    ((build_prompt_for_model db c m n).2).messages = db.messages ∧
    ((build_prompt_for_model db c m n).2).nextTime = db.nextTime := by
  simp [build_prompt_for_model, get_bot_settings_messages, get_bot_settings_nextTime]

theorem cfLoop_preserves (oracle : Nat → HttpOutcome) (c : Int) (m : String)
    (mo : Int) :
    ∀ (fuel : Nat) (db : DB) (k : Nat) (ev : List Op) (last : Option String),
      (cfLoop oracle c m mo fuel db k ev last).db.messages = db.messages ∧
      (cfLoop oracle c m mo fuel db k ev last).db.nextTime = db.nextTime := by
  intro fuel
  induction fuel with
  | zero => intro db k ev last; simp [cfLoop]
  | succ n ih =>
      intro db k ev last
      have hb1 := build_prompt_messages db c m 4
      have hb2 := build_prompt_messages ((build_prompt_for_model db c m 4).2) c m 4
      simp only [cfLoop]
      cases h : oracle k with
      | exn e =>
          by_cases hn : n = 0 <;> simp [h, hn, hb1.1, hb1.2, ih]
      | ok data =>
          cases hp : parseResponse data with
          | modelError msg => simp [h, hp, hb1.1, hb1.2]
          | text t =>
              by_cases hq : isLowQuality (pyStrip t) <;>
                by_cases hn : 0 < n <;>
                  simp [h, hp, hq, hn, hb1.1, hb1.2, hb2.1, hb2.2, ih]

theorem call_cloudflare_preserves (db : DB) (chat_id : Int) (msg : String)
    (attempts : Nat) (oracle : Nat → HttpOutcome) :
    (call_cloudflare_model db chat_id msg attempts oracle).db.messages = db.messages ∧
    (call_cloudflare_model db chat_id msg attempts oracle).db.nextTime = db.nextTime := by
  simp only [call_cloudflare_model]
  constructor <;>
    simp [cfLoop_preserves, get_bot_settings_messages, get_bot_settings_nextTime]

/-- C10: for non-blank inbound text, the handler appends exactly two rows
to the message store — first the user turn, then the assistant turn whose
content is whatever string the model call returned — and the trace shows
both inserts after every model-call event and before the reply. -/
theorem handler_persists_two_turns (db : DB) (oracle : Nat → HttpOutcome)
    (chat_id : Int) (txt : String) (hstrip : pyStrip txt = txt) (hne : txt ≠ "") :
    (handle_message db oracle chat_id (some txt)).db.messages =
      db.messages ++
        [⟨chat_id, "user", txt, db.nextTime⟩,
         ⟨chat_id, "assistant", (call_cloudflare_model db chat_id txt 2 oracle).text,
           db.nextTime + 1⟩] ∧
    (handle_message db oracle chat_id (some txt)).replies =
      [(call_cloudflare_model db chat_id txt 2 oracle).text] ∧
    (handle_message db oracle chat_id (some txt)).trace =
      [Op.loadHistory chat_id] ++
        (call_cloudflare_model db chat_id txt 2 oracle).events ++
        [Op.save chat_id "user" txt,
         Op.save chat_id "assistant" (call_cloudflare_model db chat_id txt 2 oracle).text,
         Op.reply (call_cloudflare_model db chat_id txt 2 oracle).text] := by
  have hpres := call_cloudflare_preserves db chat_id txt 2 oracle
  simp [handle_message, hstrip, hne, save_message, hpres.1, hpres.2]

/-- Witness for C10 on a concrete store and a failing network (the
assistant row records the error string). -/
theorem handler_persists_two_turns_witness :
    (handle_message ⟨some ⟨some "P", some "brief", some 140⟩, [], 0⟩
        (fun _ => HttpOutcome.exn "boom") 5 (some "hi there")).db.messages =
      [⟨5, "user", "hi there", 0⟩,
       ⟨5, "assistant",
         (call_cloudflare_model ⟨some ⟨some "P", some "brief", some 140⟩, [], 0⟩ 5
           "hi there" 2 (fun _ => HttpOutcome.exn "boom")).text, 1⟩] := by
  have h := (handler_persists_two_turns ⟨some ⟨some "P", some "brief", some 140⟩, [], 0⟩
    (fun _ => HttpOutcome.exn "boom") 5 "hi there" (by decide) (by decide)).1
  simpa using h

/-- Witness for C6 at the example history from the spec. -/
theorem build_prompt_structure_witness :
    (build_prompt_for_model
        ⟨some ⟨some "SYS", some "brief", some 140⟩,
          [⟨1, "user", "hi", 0⟩, ⟨1, "assistant", "hello", 1⟩], 2⟩ 1
        "what\x27s 2+2?" 4).1 =
      pyStrip "SYS" ++ "\n\n" ++ ENFORCED_RULES ++ "\n" ++ styleInstruction "brief" ++
        "\n" ++ "MAX_APPROX_WORDS: " ++ toString (140 : Int) ++ "\n\n" ++
        historyBlock (load_history
          ⟨some ⟨some "SYS", some "brief", some 140⟩,
            [⟨1, "user", "hi", 0⟩, ⟨1, "assistant", "hello", 1⟩], 2⟩ 1 4) ++
        ("User: " ++ "what\x27s 2+2?" ++ "\nAssistant:") :=
  (build_prompt_structure
    ⟨some ⟨some "SYS", some "brief", some 140⟩,
      [⟨1, "user", "hi", 0⟩, ⟨1, "assistant", "hello", 1⟩], 2⟩ 1
    "what\x27s 2+2?" "SYS" "brief" 140 rfl (by decide) (by decide)).1

/-! ## C1: what really happens after a failed quality gate -/

/-- C1 counterexample: with attempts = 2 and a first response failing the
gate ("Bad..."), the answer of the strict-suffix retry is NOT what the
function returns: a third request is issued with the plain prompt and its
answer is returned (after being gate-checked again).  Three posts are
issued in total, and the returned text is the third answer, not the
answer of the strict retry. -/
theorem strict_retry_not_returned_cex :
    (call_cloudflare_model ⟨some ⟨some "P", some "brief", some 140⟩, [], 0⟩ 1
        "question" 2
        (fun k =>
          if k = 0 then HttpOutcome.ok (JsonData.resultResponse "Bad...")
          else if k = 1 then
            HttpOutcome.ok (JsonData.resultResponse "STRICT RETRY ANSWER, LONG ENOUGH.")
          else
            HttpOutcome.ok
              (JsonData.resultResponse "THIRD ATTEMPT ANSWER, LONG ENOUGH."))).text =
      "THIRD ATTEMPT ANSWER, LONG ENOUGH." ∧
    ("THIRD ATTEMPT ANSWER, LONG ENOUGH." : String) ≠
      "STRICT RETRY ANSWER, LONG ENOUGH." ∧
    ((call_cloudflare_model ⟨some ⟨some "P", some "brief", some 140⟩, [], 0⟩ 1
        "question" 2
        (fun k =>
          if k = 0 then HttpOutcome.ok (JsonData.resultResponse "Bad...")
          else if k = 1 then
            HttpOutcome.ok (JsonData.resultResponse "STRICT RETRY ANSWER, LONG ENOUGH.")
          else
            HttpOutcome.ok
              (JsonData.resultResponse "THIRD ATTEMPT ANSWER, LONG ENOUGH."))).events.filter
        (fun op => match op with | Op.post _ _ _ _ => true | _ => false)).length = 3 := by
  decide

/-- C1 amended: when the first response fails the quality gate
(attempts = 2), exactly one retry with the strict suffix appended to the
prompt is issued, but the loop then issues ONE MORE request with the
plain (unsuffixed) prompt; the function returns that final, stripped
stripped response (when non-empty) — gate-checked again but returned even
if it fails — and the result of the strict retry is discarded. -/
theorem strict_retry_then_extra_attempt (db : DB) (chat_id : Int)
    (msg t1 t3 : String) (oracle : Nat → HttpOutcome)
    (h0 : oracle 0 = HttpOutcome.ok (JsonData.resultResponse t1))
    (h2 : oracle 2 = HttpOutcome.ok (JsonData.resultResponse t3))
    (hbad : isLowQuality (pyStrip t1) = true)
    (hne : pyStrip t3 ≠ "") :
    (call_cloudflare_model db chat_id msg 2 oracle).text = pyStrip t3 ∧
    (call_cloudflare_model db chat_id msg 2 oracle).events.take 4 =
      [Op.post (build_prompt_for_model ((get_bot_settings db).2) chat_id msg 4).1 msg
          45 (max 120 (min 1024 ((get_bot_settings db).1.max_tokens * 3))),
       Op.post ((build_prompt_for_model ((get_bot_settings db).2) chat_id msg 4).1 ++
           stricterSuffix) msg 40
          (max 120 (min 1024 ((get_bot_settings db).1.max_tokens * 3))),
       Op.sleepMs 400,
       Op.post (build_prompt_for_model ((get_bot_settings db).2) chat_id msg 4).1 msg
          45 (max 120 (min 1024 ((get_bot_settings db).1.max_tokens * 3)))] := by
  have hcall : call_cloudflare_model db chat_id msg 2 oracle =
      cfLoop oracle chat_id msg
        (max 120 (min 1024 ((get_bot_settings db).1.max_tokens * 3))) 2
        ((get_bot_settings db).2) 0 [] none := rfl
  rw [hcall]
  by_cases hq : isLowQuality (pyStrip t3) <;>
    simp [cfLoop, h0, h2, hbad, hq, build_prompt_stable, parseResponse,
      pyOrStr_some_of_ne _ _ hne]

/-- Witness for the amended C1 at the input of the counterexample. -/
theorem strict_retry_then_extra_attempt_witness :
    (call_cloudflare_model ⟨some ⟨some "P", some "brief", some 140⟩, [], 0⟩ 1
        "question" 2
        (fun k =>
          if k = 0 then HttpOutcome.ok (JsonData.resultResponse "Bad...")
          else if k = 1 then
            HttpOutcome.ok (JsonData.resultResponse "STRICT RETRY ANSWER, LONG ENOUGH.")
          else
            HttpOutcome.ok
              (JsonData.resultResponse "THIRD ATTEMPT ANSWER, LONG ENOUGH."))).text =
      pyStrip "THIRD ATTEMPT ANSWER, LONG ENOUGH." :=
  (strict_retry_then_extra_attempt ⟨some ⟨some "P", some "brief", some 140⟩, [], 0⟩ 1
    "question" "Bad..." "THIRD ATTEMPT ANSWER, LONG ENOUGH."
    (fun k =>
      if k = 0 then HttpOutcome.ok (JsonData.resultResponse "Bad...")
      else if k = 1 then
        HttpOutcome.ok (JsonData.resultResponse "STRICT RETRY ANSWER, LONG ENOUGH.")
      else
        HttpOutcome.ok (JsonData.resultResponse "THIRD ATTEMPT ANSWER, LONG ENOUGH."))
    rfl rfl (by decide) (by decide)).1

end Shivortex
